import Mathlib

/-!
A verification development for `wannasurf_scraper.py`.

The scraper's effectful collaborators (network fetch via `requests`,
markup navigation via BeautifulSoup) are modelled at their interface
boundary: a fetched page is represented by a structure holding exactly
the pieces of the document that the scraper reads (title text, labelled
paragraphs, table cells, image `src` attributes), and a fetch or parse
that raises an exception is represented by `Except.error` / `Option.none`.
All string manipulation performed by the Python code itself
(`clean_text`, `.lower()`, `.replace()`, `.split()`, `.rstrip()`,
slicing, `re.sub` squashing, `str.title()`, `str(n)`) is translated to
executable Lean functions, structurally recursive so that every model
function evaluates inside the kernel.
-/

namespace Wannasurf

/-! ### Python string primitives (ASCII scope, as used by the scraper) -/

/-- The characters of the regex class `\s` that the scraper can meet
after it has replaced the non-breaking space `\xa0`. -/
def isPySpace (c : Char) : Bool :=
  c == ' ' || c == '\t' || c == '\n' || c == '\r' || c == '\x0B' || c == '\x0C'

/-- Does `pat` occur at the head of `l`? -/
def listIsPref : List Char → List Char → Bool
  | [], _ => true
  | _ :: _, [] => false
  | a :: as, b :: bs => a == b && listIsPref as bs

/-- Python `sub in s` on character lists. -/
def listContainsSub (pat : List Char) : List Char → Bool
  | [] => listIsPref pat []
  | c :: rest => listIsPref pat (c :: rest) || listContainsSub pat rest

/-- Scanner for Python `s.split(sep)` (non-empty `sep`).  The fuel is
the length of the scanned list, which is always sufficient because each
step consumes at least one character. -/
def splitGo (sep : List Char) : Nat → List Char → List Char → List (List Char)
  | _, [], cur => [cur.reverse]
  | 0, l, cur => [cur.reverse ++ l]
  | fuel + 1, c :: rest, cur =>
    if listIsPref sep (c :: rest) then
      cur.reverse :: splitGo sep fuel (List.drop (sep.length - 1) rest) []
    else
      splitGo sep fuel rest (c :: cur)

/-- Python `s.split(sep)` for a non-empty separator. -/
def pySplit (s sep : String) : List String :=
  (splitGo sep.data s.data.length s.data []).map List.asString

/-- Scanner for Python `s.replace(old, new)` (non-empty `old`). -/
def replaceGo (old new : List Char) : Nat → List Char → List Char
  | _, [] => []
  | 0, l => l
  | fuel + 1, c :: rest =>
    if listIsPref old (c :: rest) then
      new ++ replaceGo old new fuel (List.drop (old.length - 1) rest)
    else
      c :: replaceGo old new fuel rest

/-- Python `s.replace(old, new)` for a non-empty `old`. -/
def pyReplace (s old new : String) : String :=
  (replaceGo old.data new.data s.data.length s.data).asString

/-- Python `s.lower()` (ASCII). -/
def pyLower (s : String) : String := (s.data.map Char.toLower).asString

/-- Python `s.rstrip(c)`: drop every trailing occurrence of `c`. -/
def pyRstrip (s : String) (c : Char) : String :=
  ((s.data.reverse.dropWhile (· == c)).reverse).asString

/-- Python slicing `s[:n]` (character count). -/
def pyTake (s : String) (n : Nat) : String := (s.data.take n).asString

/-- Python `s.startswith(p)`. -/
def pyStartsWith (s p : String) : Bool := listIsPref p.data s.data

/-- Python `sub in s`. -/
def pyContains (s sub : String) : Bool := listContainsSub sub.data s.data

/-- `sep.join(parts)`. -/
def joinSepGo (sep : List Char) : List (List Char) → List Char
  | [] => []
  | [x] => x
  | x :: y :: rest => x ++ sep ++ joinSepGo sep (y :: rest)

/-- Python `sep.join(parts)`. -/
def pyJoin (sep : String) (parts : List String) : String :=
  (joinSepGo sep.data (parts.map String.data)).asString

/-- Maximal runs of non-whitespace characters (Python `s.split()`). -/
def splitWsGo : List Char → List Char → List (List Char)
  | [], cur => if cur.isEmpty then [] else [cur.reverse]
  | c :: rest, cur =>
    if isPySpace c then
      if cur.isEmpty then splitWsGo rest [] else cur.reverse :: splitWsGo rest []
    else
      splitWsGo rest (c :: cur)

/-- Python `str.title()`: a cased character is uppercased when the
preceding character is not cased, lowercased otherwise (ASCII). -/
def titleGo : List Char → Bool → List Char
  | [], _ => []
  | c :: rest, prevCased =>
    (if prevCased then c.toLower else c.toUpper) :: titleGo rest c.isAlpha

/-- Python `s.title()` (ASCII). -/
def pyTitle (s : String) : String := (titleGo s.data false).asString

/-- Python negative indexing `l[-2]`; `none` models the `IndexError`
raised when the list has fewer than two elements. -/
def pyIndexNegTwo (l : List String) : Option String :=
  if h : 2 ≤ l.length then some (l.get ⟨l.length - 2, by omega⟩) else none

/-- `clean_text` (source lines 118-133): replace non-breaking spaces
with regular spaces, collapse whitespace runs to single spaces, and
strip both ends. -/
def clean_text (text : String) : String :=
  pyJoin " " (((splitWsGo (pyReplace text "\u00A0" " ").data []).map List.asString))

/-! ### Python `dict` on string keys (insertion-ordered, last write wins) -/

/-- `d[k] = v`: overwrite in place when the key exists, append otherwise. -/
def dictInsert {α : Type} (m : List (String × α)) (k : String) (v : α) :
    List (String × α) :=
  if m.any (fun p => p.1 == k) then
    m.map (fun p => if p.1 == k then (k, v) else p)
  else
    m ++ [(k, v)]

/-- `d.get(k)` as an `Option`. -/
def dictGet? {α : Type} (m : List (String × α)) (k : String) : Option α :=
  (m.find? (fun p => p.1 == k)).map (fun p => p.2)

/-- `d.get(k, dflt)`. -/
def dictGetD {α : Type} (m : List (String × α)) (k : String) (dflt : α) : α :=
  (dictGet? m k).getD dflt

/-! ### URL helpers used on image sources -/

/-- The `path` component of `urllib.parse.urlparse` for the URL shapes
the site produces: an optional `scheme://netloc` front, an optional
query (`?`) and fragment (`#`). -/
def urlparse_path (src : String) : String :=
  let noFrag := (pySplit src "#").headD src
  let noQuery := (pySplit noFrag "?").headD noFrag
  match pySplit noQuery "://" with
  | [] => ""
  | [p] => p
  | _ :: rest =>
    match pySplit (pyJoin "://" rest) "/" with
    | [] => ""
    | [_] => ""
    | _ :: segs => "/" ++ pyJoin "/" segs

/-- `os.path.basename`: everything after the last `/`. -/
def os_path_basename (p : String) : String := (pySplit p "/").getLastD ""

/-! ### Seasons table model (§ `parse_seasons_table`, source lines 136-228)

A `<td>`/`<th>` cell is reduced to the three observations the code makes
of it: its raw text (`get_text()`), its stripped text
(`get_text(strip=True)`) and the `src` of its first `<img>` child when
one exists (`some ""` models an `<img>` without a `src` attribute, since
the code reads `img.get("src", "")`). -/
structure Cell where
  textRaw : String
  textStrip : String
  img : Option String
deriving DecidableEq

/-- A seasons `<table>` with its `<thead>` rows (lists of `<th>` cells)
and `<tbody>` rows (lists of `<td>`/`<th>` cells).  The code assumes
both groups are present on the element it is handed. -/
structure SeasonsTableDoc where
  theadRows : List (List Cell)
  tbodyRows : List (List Cell)
deriving DecidableEq

/-- Month-pair key derivation: `cell.get_text(strip=True).lower()
.replace("/", "_").replace(" ", "_")`. -/
def bi_month_key (s : String) : String :=
  pyReplace (pyReplace (pyLower s) "/" "_") " " "_"

/-- `re.match(r"[A-Za-z]{3}$", c)`: three ASCII letters (with `$` also
accepting one trailing newline, as in Python). -/
def is_three_letter_month (s : String) : Bool :=
  match s.data with
  | [a, b, c] => a.isAlpha && b.isAlpha && c.isAlpha
  | [a, b, c, d] => a.isAlpha && b.isAlpha && c.isAlpha && d == '\n'
  | _ => false

/-- Column-key derivation of `parse_seasons_table` (source lines
163-193): in `"bi"` mode the keys come from the second header row; in
single-month mode the first header row containing a three-letter month
cell supplies them. -/
def season_month_headers (table : SeasonsTableDoc) (months_format : String) :
    List String :=
  if months_format == "bi" then
    match table.theadRows with
    | _ :: row2 :: _ => row2.map (fun c => bi_month_key c.textStrip)
    | _ => []
  else
    match table.theadRows.find?
        (fun row => row.any (fun c => is_three_letter_month c.textStrip)) with
    | some row =>
      (row.filter (fun c => is_three_letter_month c.textStrip)).map
        (fun c => pyLower c.textStrip)
    | none => []

/-- Cell decoding (source lines 210-223): an image cell yields the
basename of its `src` (or the literal `"0"` for the well-known
`wanna-empty` placeholder); a text cell yields its cleaned text. -/
def decode_season_cell (cell : Cell) : String :=
  match cell.img with
  | some src =>
    let filename := os_path_basename (urlparse_path src)
    if pyStartsWith (pyLower filename) "wanna-empty" then "0" else filename
  | none => clean_text cell.textRaw

/-- Metric-key normalisation of the first body cell (source line 201). -/
def season_metric_key (c : Cell) : String :=
  pyReplace (pyReplace (pyLower (clean_text c.textRaw)) " " "_") "." ""

/-- The per-row values dictionary (source lines 202-223): for the
`idx`-th month key the cell at `idx + 1` is decoded; an out-of-range
index records the explicit empty string. -/
def season_row_values (monthHeaders : List String) (cells : List Cell) :
    List (String × String) :=
  monthHeaders.enum.foldl
    (fun values p =>
      let cellIndex := p.1 + 1
      if h : cellIndex < cells.length then
        dictInsert values p.2 (decode_season_cell (cells.get ⟨cellIndex, h⟩))
      else
        dictInsert values p.2 "")
    []

/-- One body-row step of `parse_seasons_table` (source lines 197-227):
rows without cells are skipped (`continue`); every other row writes its
values dictionary under its metric key. -/
def season_fold_step (monthHeaders : List String)
    (result : List (String × List (String × String))) (cells : List Cell) :
    List (String × List (String × String)) :=
  match cells with
  | [] => result
  | c0 :: _ =>
    dictInsert result (season_metric_key c0)
      (season_row_values monthHeaders cells)

/-- `parse_seasons_table` (source lines 136-228). -/
def parse_seasons_table (table : SeasonsTableDoc) (months_format : String) :
    List (String × List (String × String)) :=
  table.tbodyRows.foldl
    (season_fold_step (season_month_headers table months_format)) []

/-! ### Surf spot model (§ `parse_spot_page`, source lines 231-470) -/

/-- `Spot` (source lines 231-284): the 22 extracted string fields plus
the name, each defaulting to the empty string. -/
structure Spot where
  name : String
  distance : String := ""
  walk : String := ""
  easy_to_find : String := ""
  public_access : String := ""
  special_access : String := ""
  wave_quality : String := ""
  experience : String := ""
  frequency : String := ""
  type : String := ""
  direction : String := ""
  bottom : String := ""
  power : String := ""
  normal_length : String := ""
  good_day_length : String := ""
  good_swell_direction : String := ""
  good_wind_direction : String := ""
  swell_size : String := ""
  best_tide_position : String := ""
  best_tide_movement : String := ""
  additional_information : String := ""
  latitude : String := ""
  longitude : String := ""
deriving DecidableEq

/-- The 22 field values enumerated by the sentinel-normalisation loop of
`parse_spot_page` (source lines 442-465), in that loop's order. -/
def spot_fields_22 (s : Spot) : List String :=
  [s.distance, s.walk, s.easy_to_find, s.public_access, s.special_access,
   s.wave_quality, s.experience, s.frequency, s.type, s.direction, s.bottom,
   s.power, s.normal_length, s.good_day_length, s.good_swell_direction,
   s.good_wind_direction, s.swell_size, s.best_tide_position,
   s.best_tide_movement, s.latitude, s.longitude, s.additional_information]

/-- A surf spot page, reduced to the document observations
`parse_spot_page` makes.  `accessPairs`/`charPairs` hold, per labelled
paragraph in document order, the raw label-span text and the raw
paragraph text left after all spans are extracted; `none` models an
absent section heading (or table).  `additionalInfo` is the raw text of
the first inline-styled paragraph after the additional-information
heading; `latSib`/`lonSib` are the raw next-sibling text nodes of the
GPS label spans. -/
structure SpotDoc where
  title : Option String
  url : String
  accessPairs : Option (List (String × String))
  charPairs : Option (List (String × String))
  additionalInfo : Option String
  latSib : Option String
  lonSib : Option String
deriving DecidableEq

/-- Name derivation on a spot page (source lines 301-302): the title
text before the first `" - "`, falling back to `url.split("/")[-2]`
when the title is missing or empty. -/
def parse_spot_name (titleTag : Option String) (url : String) : Option String :=
  let title := titleTag.getD ""
  if title == "" then pyIndexNegTwo (pySplit url "/")
  else some ((pySplit title " - ").headD "")

/-- Label normalisation: `clean_text(...).rstrip(":").lower()`. -/
def normalize_label (raw : String) : String :=
  pyLower (pyRstrip (clean_text raw) ':')

/-- One labelled paragraph of the access table (source lines 324-342). -/
def apply_access_pair (s : Spot) (p : String × String) : Spot :=
  let label := normalize_label p.1
  let value := clean_text p.2
  if label == "distance" then { s with distance := value }
  else if label == "walk" then { s with walk := value }
  else if label == "easy to find?" then { s with easy_to_find := value }
  else if label == "public access?" then { s with public_access := value }
  else if label == "special access" then { s with special_access := value }
  else s

/-- One labelled paragraph of the characteristics columns (source lines
362-402).  The `h5` sub-heading tracking of the source is informational
only (`current_section` is never read), so it does not appear here. -/
def apply_char_pair (s : Spot) (p : String × String) : Spot :=
  let label := normalize_label p.1
  let value := clean_text p.2
  if label == "wave quality" then { s with wave_quality := value }
  else if label == "experience" then { s with experience := value }
  else if label == "frequency" then { s with frequency := value }
  else if label == "type" then { s with type := value }
  else if label == "direction" then { s with direction := value }
  else if label == "bottom" then { s with bottom := value }
  else if label == "power" then { s with power := value }
  else if label == "normal length" then { s with normal_length := value }
  else if label == "good day length" then { s with good_day_length := value }
  else if label == "good swell direction" then { s with good_swell_direction := value }
  else if label == "good wind direction" then { s with good_wind_direction := value }
  else if label == "swell size" then { s with swell_size := value }
  else if label == "best tide position" then { s with best_tide_position := value }
  else if label == "best tide movement" then { s with best_tide_movement := value }
  else s

/-- The extraction phase of `parse_spot_page` (source lines 297-438):
name, access section, characteristics section, additional information,
coordinates - everything before the sentinel normalisation.  `none`
models the `IndexError` of the name fallback. -/
def parse_spot_page_raw (d : SpotDoc) : Option Spot :=
  match parse_spot_name d.title d.url with
  | none => none
  | some nm =>
    let s : Spot := { name := nm }
    let s := match d.accessPairs with
      | none => s
      | some ps => ps.foldl apply_access_pair s
    let s := match d.charPairs with
      | none => s
      | some ps => ps.foldl apply_char_pair s
    let s := match d.additionalInfo with
      | none => s
      | some raw => { s with additional_information := clean_text raw }
    let s := match d.latSib with
      | none => s
      | some t => if t == "" then s else { s with latitude := clean_text t }
    let s := match d.lonSib with
      | none => s
      | some t => if t == "" then s else { s with longitude := clean_text t }
    some s

/-- The normalisation applied to one field by the final loop of
`parse_spot_page`: a falsy (empty) value becomes the sentinel. -/
def fill_empty (v : String) : String := if v == "" then "empty" else v

/-- The sentinel-normalisation loop of `parse_spot_page` (source lines
440-468): each of the 22 fields that is still empty is rewritten to the
literal `"empty"`; the name is not touched. -/
def normalize_spot (s : Spot) : Spot :=
  { s with
    distance := fill_empty s.distance,
    walk := fill_empty s.walk,
    easy_to_find := fill_empty s.easy_to_find,
    public_access := fill_empty s.public_access,
    special_access := fill_empty s.special_access,
    wave_quality := fill_empty s.wave_quality,
    experience := fill_empty s.experience,
    frequency := fill_empty s.frequency,
    type := fill_empty s.type,
    direction := fill_empty s.direction,
    bottom := fill_empty s.bottom,
    power := fill_empty s.power,
    normal_length := fill_empty s.normal_length,
    good_day_length := fill_empty s.good_day_length,
    good_swell_direction := fill_empty s.good_swell_direction,
    good_wind_direction := fill_empty s.good_wind_direction,
    swell_size := fill_empty s.swell_size,
    best_tide_position := fill_empty s.best_tide_position,
    best_tide_movement := fill_empty s.best_tide_movement,
    latitude := fill_empty s.latitude,
    longitude := fill_empty s.longitude,
    additional_information := fill_empty s.additional_information }

/-- `parse_spot_page` (source lines 287-470): extraction followed by the
one-shot sentinel normalisation. -/
def parse_spot_page (d : SpotDoc) : Option Spot :=
  (parse_spot_page_raw d).map normalize_spot

/-! ### Country/zone model (§ `parse_country_or_zone_page`, lines 473-661) -/

/-- `Zone` (source lines 473-487).  Recursive, hence an inductive type;
field accessors follow below. -/
inductive Zone where
  | mk (name url about at_a_glance : String)
       (seasons : List (String × List (String × String)))
       (additional_map : Option String)
       (surf_spots : List Spot)
       (sub_zones : List Zone)

def Zone.name : Zone → String
  | .mk n _ _ _ _ _ _ _ => n

def Zone.url : Zone → String
  | .mk _ u _ _ _ _ _ _ => u

def Zone.about : Zone → String
  | .mk _ _ a _ _ _ _ _ => a

def Zone.at_a_glance : Zone → String
  | .mk _ _ _ g _ _ _ _ => g

def Zone.seasons : Zone → List (String × List (String × String))
  | .mk _ _ _ _ s _ _ _ => s

def Zone.additional_map : Zone → Option String
  | .mk _ _ _ _ _ m _ _ => m

def Zone.surf_spots : Zone → List Spot
  | .mk _ _ _ _ _ _ sp _ => sp

def Zone.sub_zones : Zone → List Zone
  | .mk _ _ _ _ _ _ _ sz => sz

/-- `Zone.is_leaf` (source lines 485-487). -/
def Zone.is_leaf (z : Zone) : Bool := z.sub_zones.isEmpty

/-- The metadata observations `parse_country_or_zone_page` makes of a
country or zone page: title text, the raw text of the chosen about
paragraph, the raw flattened text of the at-a-glance block, the seasons
table element and the `src` of the additional-map image. -/
structure NodeMeta where
  title : Option String
  url : String
  aboutPara : Option String
  infosText : Option String
  seasonsTable : Option SeasonsTableDoc
  mapImgSrc : Option String
deriving DecidableEq

/-- A country or zone page together with the child links its Zones and
Surf Spots tables yield (source lines 592-634), each link carrying its
discovered name, its resolved URL, and the outcome of fetching and
reading the linked document: `Except.error ()` models a fetch (or any
other) exception raised while processing that child. -/
inductive NodeDoc where
  | mk (meta : NodeMeta)
       (spotLinks : List (String × String × Except Unit SpotDoc))
       (zoneLinks : List (String × String × Except Unit NodeDoc))

def NodeDoc.meta : NodeDoc → NodeMeta
  | .mk m _ _ => m

def NodeDoc.spotLinks : NodeDoc → List (String × String × Except Unit SpotDoc)
  | .mk _ s _ => s

def NodeDoc.zoneLinks : NodeDoc → List (String × String × Except Unit NodeDoc)
  | .mk _ _ z => z

/-- Name derivation on a country/zone page (source lines 536-537): note
that the fallback `url.split("/")[-2]` is evaluated both when the title
tag is missing and when the resulting title text is empty. -/
def parse_node_name (titleTag : Option String) (url : String) : Option String :=
  match (match titleTag with
         | some t => some t
         | none => pyIndexNegTwo (pySplit url "/")) with
  | none => none
  | some title =>
    if title == "" then pyIndexNegTwo (pySplit url "/")
    else some ((pySplit title " - ").headD "")

/-- About extraction (source lines 544-557): a cleaned non-empty text
not starting with the "wanna add some info" placeholder. -/
def parse_about (aboutPara : Option String) : String :=
  match aboutPara with
  | none => ""
  | some raw =>
    let t := clean_text raw
    if t != "" && !(pyStartsWith (pyLower t) "wanna add some info") then t else ""

/-- At-a-glance extraction (source lines 559-568), countries only. -/
def parse_at_a_glance (is_country : Bool) (infosText : Option String) : String :=
  if is_country then
    match infosText with
    | none => ""
    | some raw =>
      let t := clean_text raw
      if t != "" && !(pyContains (pyLower t) "automatic build") then t else ""
  else ""

def BASE_URL : String := "https://www.wannasurf.com"

/-- Seasons extraction of a node page (source lines 570-580): when the
seasons table is present it is decoded with the literal `"bi"` format
(source line 574 computes `"bi"` for both roles). -/
def parse_node_seasons :
    Option SeasonsTableDoc → List (String × List (String × String))
  | none => []
  | some tb => parse_seasons_table tb "bi"

/-- `urljoin(BASE_URL, href)` for the href shapes the site produces
(BASE_URL has no path component). -/
def urljoin_base (href : String) : String :=
  if pyStartsWith href "http" then href
  else if pyStartsWith href "//" then "https:" ++ href
  else if pyStartsWith href "/" then BASE_URL ++ href
  else BASE_URL ++ "/" ++ href

/-- Additional map extraction (source lines 582-590). -/
def parse_additional_map (mapImgSrc : Option String) : Option String :=
  match mapImgSrc with
  | none => none
  | some src => if src == "" then none else some (urljoin_base src)

/-- The warning printed when a spot child fails (source line 647). -/
def spot_warning (n u : String) : String :=
  "Warning: failed to parse spot " ++ n ++ " at " ++ u

/-- The warning printed when a zone child fails (source line 659). -/
def zone_warning (n u : String) : String :=
  "Warning: failed to parse zone " ++ n ++ " at " ++ u

/-- The surf-spot child loop (source lines 636-647): every link whose
fetch and parse succeed contributes its `Spot`, in discovery order; a
failing link contributes only a warning. -/
def parse_spot_links :
    List (String × String × Except Unit SpotDoc) → List Spot × List String
  | [] => ([], [])
  | (n, u, r) :: rest =>
    let tail := parse_spot_links rest
    match r with
    | .error _ => (tail.1, spot_warning n u :: tail.2)
    | .ok d =>
      match parse_spot_page d with
      | none => (tail.1, spot_warning n u :: tail.2)
      | some s => (s :: tail.1, tail.2)

mutual

/-- `parse_country_or_zone_page` (source lines 514-661), returning the
constructed `Zone` together with the warnings its own child loops
print; `none` models the `IndexError` of the name fallback.  The
`months_format` argument of the seasons call is the literal `"bi"`
(source lines 574-578). -/
def parse_country_or_zone_page (d : NodeDoc) (is_country : Bool) :
    Option (Zone × List String) :=
  match d with
  | .mk meta spotLinks zoneLinks =>
    match parse_node_name meta.title meta.url with
    | none => none
    | some nm =>
      let about := parse_about meta.aboutPara
      let glance := parse_at_a_glance is_country meta.infosText
      let seasons := parse_node_seasons meta.seasonsTable
      let amap := parse_additional_map meta.mapImgSrc
      let spots := parse_spot_links spotLinks
      let subs := parse_zone_links zoneLinks
      some (Zone.mk nm meta.url about glance seasons amap spots.1 subs.1,
            spots.2 ++ subs.2)

/-- The sub-zone child loop (source lines 649-659): every link whose
fetch and recursive parse succeed contributes its `Zone`, in discovery
order; a failing link contributes only a warning. -/
def parse_zone_links :
    List (String × String × Except Unit NodeDoc) → List Zone × List String
  | [] => ([], [])
  | (n, u, r) :: rest =>
    let tail := parse_zone_links rest
    match r with
    | .error _ => (tail.1, zone_warning n u :: tail.2)
    | .ok dd =>
      match parse_country_or_zone_page dd false with
      | none => (tail.1, zone_warning n u :: tail.2)
      | some zl => (zl.1 :: tail.1, tail.2)

end


/-! ### Report rendering (§ `build_excel_workbook`, source lines 691-929) -/

/-- The fixed six-slot paired-month axis (source lines 745-747). -/
def default_months : List String :=
  ["jan_feb", "mar_apr", "may_jun", "jul_aug", "sep_oct", "nov_dec"]

/-- `month.replace("_", "/").title()` (source line 757). -/
def month_label (m : String) : String := pyTitle (pyReplace m "_" "/")

/-- The line list built by `format_seasons` (source lines 734-762),
before the newline join: six lines over the fixed axis; a missing
metric yields all-empty lines, and a missing, empty or `"0"` value
yields an empty line. -/
def format_seasons_lines (seasons : List (String × List (String × String)))
    (metric_key : String) : List String :=
  if seasons.isEmpty || (dictGet? seasons metric_key).isNone then
    default_months.map (fun m => month_label m ++ " - empty")
  else
    default_months.map (fun m =>
      let val := dictGetD (dictGetD seasons metric_key []) m ""
      if val == "" || val == "0" then month_label m ++ " - empty"
      else month_label m ++ " - " ++ val)

/-- `format_seasons` (source lines 734-762). -/
def format_seasons (seasons : List (String × List (String × String)))
    (metric_key : String) : String :=
  pyJoin "\n" (format_seasons_lines seasons metric_key)

/-- The five canonical seasonal metrics (source lines 765-771). -/
def season_metrics : List (String × String) :=
  [("best_surfing_season", "best surfing"),
   ("typical_swell_size", "Typical Swell Size"),
   ("surf_equipment", "Surf Equipment"),
   ("water_temp", "Water temp."),
   ("air_temp", "Air temp.")]

/-- `re.sub(r"[^A-Za-z0-9_]+", "_", s)` (source lines 838 and 880):
every maximal run of non-word characters becomes one underscore. -/
def isWordChar (c : Char) : Bool := c.isAlphanum || c == '_'

def squashGo : List Char → Bool → List Char
  | [], _ => []
  | c :: rest, inRun =>
    if isWordChar c then c :: squashGo rest false
    else if inRun then squashGo rest true
    else '_' :: squashGo rest true

def sanitize_name (s : String) : String := (squashGo s.data false).asString

/-- The sheet-name collision loop (source lines 840-844 and 882-886):
starting from the 31-truncated base, candidates
`base[:28] + "_" + str(suffix)` are tried for `suffix = 1, 2, ...`
until one is unused.  The fuel bounds the search; `assign_sheet_name`
supplies one more than the number of used names, which always suffices
(`assign_loop_finds_fresh` below). -/
def assign_loop (created : List String) (base : String) (suffix : Nat) :
    Nat → String
  | 0 => pyTake base 28 ++ "_" ++ Nat.repr suffix
  | fuel + 1 =>
    let cand := pyTake base 28 ++ "_" ++ Nat.repr suffix
    if cand ∈ created then assign_loop created base (suffix + 1) fuel else cand

/-- Sheet-name assignment for one zone (source lines 838-844 and
880-886): sanitise, truncate to 31 characters, then resolve collisions
against the set of already-created names. -/
def assign_sheet_name (created : List String) (zname : String) : String :=
  let sheetName := pyTake (sanitize_name zname) 31
  if sheetName ∈ created then assign_loop created sheetName 1 (created.length + 1)
  else sheetName

/-- Assign names for a list of zones in order, threading the created
set exactly as the workbook loops do (each assigned name is added to
`created_sheets` before the next zone is processed). -/
def assign_all (created : List String) :
    List String → List String × List String
  | [] => (created, [])
  | n :: rest =>
    let nm := assign_sheet_name created n
    let next := assign_all (created ++ [nm]) rest
    (next.1, nm :: next.2)

/-- The `nested_zones` collection (source lines 817-834): every direct
child zone of a country that itself has sub-zones, in row order. -/
def nested_zones (countries : List (String × Zone)) : List (String × Zone) :=
  countries.flatMap (fun c =>
    c.2.sub_zones.filterMap (fun z =>
      if z.sub_zones.isEmpty then none else some (z.name, z)))

/-- The `leaf_zones` collection for one country (source lines 866-878):
the country itself when it has no zones, otherwise its depth-2 leaf
zones and the depth-3 leaf zones below non-leaf depth-2 zones.  The
loops stop there: a zone nested more deeply is never visited. -/
def leaf_zones (country_zone : Zone) : List (String × Zone) :=
  if country_zone.sub_zones.isEmpty then
    [(country_zone.name, country_zone)]
  else
    country_zone.sub_zones.flatMap (fun z =>
      if z.sub_zones.isEmpty then [(z.name, z)]
      else
        z.sub_zones.filterMap (fun sub_z =>
          if sub_z.sub_zones.isEmpty then some (sub_z.name, sub_z) else none))

/-- The ordered list of sheet names one continent workbook creates
(source lines 777-928): the fixed Country and Zones sheets, one sheet
per nested zone, then one surf-spot sheet per collected leaf zone of
each country, with the created-name set threaded through both loops. -/
def workbook_sheet_names (countries : List (String × Zone)) : List String :=
  let created0 := ["Country", "Zones"]
  let step1 := assign_all created0 ((nested_zones countries).map (fun p => p.1))
  let leafNames := countries.flatMap (fun c => (leaf_zones c.2).map (fun p => p.1))
  let step2 := assign_all step1.1 leafNames
  "Country" :: "Zones" :: (step1.2 ++ step2.2)

/-! ### The sampling driver (§ `main`, source lines 932-989) -/

def Zone.withSurfSpots : Zone → List Spot → Zone
  | .mk n u a g se m _ sz, sp => .mk n u a g se m sp sz

def Zone.withSubZones : Zone → List Zone → Zone
  | .mk n u a g se m sp _, sz => .mk n u a g se m sp sz

/-- The in-place truncation `zone_obj.surf_spots = zone_obj.surf_spots[:5]`
guarded by `if sample and len(...) > 5` (source lines 972-973 and
979-980). -/
def sample_limit_spots (sample : Bool) (z : Zone) : Zone :=
  if sample = true ∧ 5 < z.surf_spots.length then
    z.withSurfSpots (z.surf_spots.take 5)
  else z

/-- The per-country CSV step of `main` (source lines 966-982), as the
transformation it leaves on the stored country `Zone`: in sample mode
the first zone of a country with zones - or the country itself when it
has none - has its surf-spot list truncated in place; with
`sample=False` the truncation guard is never met and nothing changes. -/
def main_process_country (sample : Bool) (cz : Zone) : Zone :=
  if cz.sub_zones.isEmpty then sample_limit_spots sample cz
  else if sample then
    match cz.sub_zones with
    | [] => cz
    | z :: rest => cz.withSubZones (sample_limit_spots sample z :: rest)
  else cz


/-! ### Helper lemmas

First: `str(n)` (that is, `Nat.repr`) is injective, which is what makes
the sheet-name collision loop terminate with a genuinely fresh name. -/

lemma toDigitsCore_eq_digits :
    ∀ (fuel n : Nat) (acc : List Char), n < fuel →
      Nat.toDigitsCore 10 fuel n acc =
        (if n = 0 then ['0']
         else ((Nat.digits 10 n).map Nat.digitChar).reverse) ++ acc := by
  intro fuel
  induction fuel with
  | zero => intro n acc h; omega
  | succ f ih =>
    intro n acc h
    by_cases h0 : n / 10 = 0
    · have hn10 : n < 10 := by omega
      by_cases hn : n = 0
      · subst hn; simp [Nat.toDigitsCore]; decide
      · simp only [Nat.toDigitsCore, h0, if_true, if_neg hn]
        rw [Nat.digits_def' (by norm_num : (1:ℕ) < 10) (Nat.pos_of_ne_zero hn), h0]
        simp [Nat.mod_eq_of_lt hn10]
    · have hge : 10 ≤ n := by
        by_contra hlt
        push_neg at hlt
        exact h0 (Nat.div_eq_of_lt hlt)
      have hltf : n / 10 < f := by
        have := Nat.div_lt_self (by omega : 0 < n) (by norm_num : 1 < 10)
        omega
      simp only [Nat.toDigitsCore, h0, if_false]
      rw [ih (n / 10) _ hltf, if_neg h0]
      rw [Nat.digits_def' (by norm_num : (1:ℕ) < 10) (by omega : 0 < n)]
      rw [if_neg (by omega : n ≠ 0)]
      simp

lemma nat_repr_eq (n : Nat) :
    Nat.repr n =
      (if n = 0 then ['0']
       else ((Nat.digits 10 n).map Nat.digitChar).reverse).asString := by
  show (Nat.toDigits 10 n).asString = _
  rw [Nat.toDigits, toDigitsCore_eq_digits (n + 1) n [] (Nat.lt_succ_self n),
    List.append_nil]

lemma digitChar_injOn :
    ∀ a, a < 10 → ∀ b, b < 10 → Nat.digitChar a = Nat.digitChar b → a = b := by
  decide

lemma map_digitChar_inj :
    ∀ (l1 l2 : List Nat), (∀ x ∈ l1, x < 10) → (∀ x ∈ l2, x < 10) →
      l1.map Nat.digitChar = l2.map Nat.digitChar → l1 = l2
  | [], [], _, _, _ => rfl
  | [], _ :: _, _, _, h => by simp at h
  | _ :: _, [], _, _, h => by simp at h
  | a :: l1, b :: l2, h1, h2, h => by
    simp only [List.map_cons, List.cons.injEq] at h
    have hab := digitChar_injOn a (h1 a (by simp)) b (h2 b (by simp)) h.1
    rw [hab, map_digitChar_inj l1 l2 (fun x hx => h1 x (by simp [hx]))
      (fun x hx => h2 x (by simp [hx])) h.2]

lemma nat_repr_injective : Function.Injective Nat.repr := by
  intro a b h
  rw [nat_repr_eq, nat_repr_eq] at h
  have hdata : (if a = 0 then ['0']
      else ((Nat.digits 10 a).map Nat.digitChar).reverse) =
      (if b = 0 then ['0']
      else ((Nat.digits 10 b).map Nat.digitChar).reverse) := congrArg String.data h
  have keyzero : ∀ c : Nat, c ≠ 0 →
      ((Nat.digits 10 c).map Nat.digitChar).reverse ≠ ['0'] := by
    intro c hc habs
    have hmap : (Nat.digits 10 c).map Nat.digitChar = ['0'] := by
      have := congrArg List.reverse habs
      simpa using this
    cases hd : Nat.digits 10 c with
    | nil => rw [hd] at hmap; simp at hmap
    | cons d tl =>
      rw [hd] at hmap
      simp only [List.map_cons, List.cons.injEq] at hmap
      have htl : tl = [] := by
        have := hmap.2
        cases tl with
        | nil => rfl
        | cons x xs => simp at this
      have hdlt : d < 10 :=
        Nat.digits_lt_base (by norm_num) (by rw [hd]; exact List.mem_cons_self d tl)
      have hd0 : d = 0 :=
        digitChar_injOn d hdlt 0 (by norm_num) (by rw [hmap.1]; rfl)
      have : c = 0 := by
        have hof := Nat.ofDigits_digits 10 c
        rw [hd, htl, hd0] at hof
        simpa [Nat.ofDigits] using hof.symm
      exact hc this
  by_cases ha : a = 0 <;> by_cases hb : b = 0
  · omega
  · rw [if_pos ha, if_neg hb] at hdata; exact absurd hdata.symm (keyzero b hb)
  · rw [if_neg ha, if_pos hb] at hdata; exact absurd hdata (keyzero a ha)
  · rw [if_neg ha, if_neg hb] at hdata
    have hmaps := List.reverse_injective hdata
    have hdig := map_digitChar_inj _ _
      (fun x hx => Nat.digits_lt_base (by norm_num) hx)
      (fun x hx => Nat.digits_lt_base (by norm_num) hx) hmaps
    have := congrArg (Nat.ofDigits 10) hdig
    rwa [Nat.ofDigits_digits, Nat.ofDigits_digits] at this

lemma string_append_right_inj (a : String) {b c : String} (h : a ++ b = a ++ c) :
    b = c := by
  have hd : a.data ++ b.data = a.data ++ c.data := by
    have := congrArg String.data h
    simpa [String.data_append] using this
  apply String.ext
  exact List.append_cancel_left hd

/-- The candidate names tried by the collision loop are pairwise
distinct, so among `created.length + 1` of them one is unused. -/
lemma exists_fresh_cand (created : List String) (base : String) :
    ∃ j < created.length + 1, (base ++ "_" ++ Nat.repr (1 + j)) ∉ created := by
  by_contra hc
  push_neg at hc
  have hinj : Function.Injective (fun j : Nat => base ++ "_" ++ Nat.repr (1 + j)) := by
    intro j1 j2 h
    have := nat_repr_injective (string_append_right_inj (base ++ "_")
      (by simpa [String.append_assoc] using h))
    omega
  have hsub : ((Finset.range (created.length + 1)).image
      (fun j => base ++ "_" ++ Nat.repr (1 + j))) ⊆ created.toFinset := by
    intro x hx
    simp only [Finset.mem_image, Finset.mem_range] at hx
    obtain ⟨j, hj, rfl⟩ := hx
    exact List.mem_toFinset.mpr (hc j hj)
  have hcard := Finset.card_le_card hsub
  rw [Finset.card_image_of_injective _ hinj, Finset.card_range] at hcard
  have hle := created.toFinset_card_le
  omega

lemma assign_loop_not_mem (created : List String) (base : String) :
    ∀ (fuel suffix : Nat),
      (∃ j < fuel, (pyTake base 28 ++ "_" ++ Nat.repr (suffix + j)) ∉ created) →
      assign_loop created base suffix fuel ∉ created := by
  intro fuel
  induction fuel with
  | zero =>
    intro suffix h
    obtain ⟨j, hj, _⟩ := h
    omega
  | succ f ih =>
    intro suffix h
    by_cases hcand : (pyTake base 28 ++ "_" ++ Nat.repr suffix) ∈ created
    · simp only [assign_loop, if_pos hcand]
      apply ih (suffix + 1)
      obtain ⟨j, hj, hnot⟩ := h
      match j, hj, hnot with
      | 0, _, hnot => exact absurd hcand (by simpa using hnot)
      | j' + 1, hj, hnot =>
        exact ⟨j', by omega, by rw [show suffix + 1 + j' = suffix + (j' + 1) by omega]; exact hnot⟩
    · simp only [assign_loop, if_neg hcand]
      exact hcand

lemma assign_loop_suffix_form (created : List String) (base : String) :
    ∀ (fuel suffix : Nat), ∃ k, suffix ≤ k ∧
      assign_loop created base suffix fuel = pyTake base 28 ++ "_" ++ Nat.repr k := by
  intro fuel
  induction fuel with
  | zero => intro suffix; exact ⟨suffix, le_refl _, rfl⟩
  | succ f ih =>
    intro suffix
    by_cases hcand : (pyTake base 28 ++ "_" ++ Nat.repr suffix) ∈ created
    · obtain ⟨k, hk, he⟩ := ih (suffix + 1)
      exact ⟨k, by omega, by simp only [assign_loop, if_pos hcand]; exact he⟩
    · exact ⟨suffix, le_refl _, by simp only [assign_loop, if_neg hcand]⟩

/-- The assigned sheet name is never one of the already-created ones. -/
lemma assign_sheet_name_not_mem (created : List String) (zname : String) :
    assign_sheet_name created zname ∉ created := by
  simp only [assign_sheet_name]
  by_cases hc : pyTake (sanitize_name zname) 31 ∈ created
  · rw [if_pos hc]
    exact assign_loop_not_mem created _ _ 1
      (exists_fresh_cand created (pyTake (pyTake (sanitize_name zname) 31) 28))
  · rw [if_neg hc]
    exact hc

lemma assign_all_fst (created : List String) (names : List String) :
    (assign_all created names).1 = created ++ (assign_all created names).2 := by
  induction names generalizing created with
  | nil => simp [assign_all]
  | cons n rest ih =>
    simp only [assign_all]
    rw [ih (created ++ [assign_sheet_name created n])]
    simp

lemma assign_all_nodup_disjoint (created : List String) (names : List String) :
    (assign_all created names).2.Nodup ∧
      ∀ x ∈ (assign_all created names).2, x ∉ created := by
  induction names generalizing created with
  | nil => simp [assign_all]
  | cons n rest ih =>
    simp only [assign_all]
    obtain ⟨hnd, hdisj⟩ := ih (created ++ [assign_sheet_name created n])
    have hfresh := assign_sheet_name_not_mem created n
    refine ⟨List.nodup_cons.mpr ⟨fun hmem => ?_, hnd⟩, ?_⟩
    · exact hdisj _ hmem (by simp)
    · intro x hx
      rcases List.mem_cons.mp hx with rfl | hx'
      · exact hfresh
      · intro hxc
        exact hdisj x hx' (by simp [hxc])

lemma dictInsert_ne_nil {α : Type} (m : List (String × α)) (k : String) (v : α) :
    dictInsert m k v ≠ [] := by
  unfold dictInsert
  by_cases h : m.any (fun p => p.1 == k)
  · rw [if_pos h]
    intro hm
    rw [List.map_eq_nil_iff] at hm
    subst hm
    simp at h
  · rw [if_neg h]
    simp

lemma dictInsert_snd_prop {α : Type} {P : α → Prop} {m : List (String × α)}
    {k : String} {v : α} (hm : ∀ p ∈ m, P p.2) (hv : P v) :
    ∀ p ∈ dictInsert m k v, P p.2 := by
  intro p hp
  unfold dictInsert at hp
  by_cases h : m.any (fun q => q.1 == k)
  · rw [if_pos h] at hp
    obtain ⟨q, hq, hqe⟩ := List.mem_map.mp hp
    by_cases hqk : q.1 == k
    · rw [if_pos hqk] at hqe
      rw [← hqe]
      exact hv
    · rw [if_neg hqk] at hqe
      rw [← hqe]
      exact hm q hq
  · rw [if_neg h] at hp
    rcases List.mem_append.mp hp with h1 | h1
    · exact hm p h1
    · simp only [List.mem_singleton] at h1
      rw [h1]
      exact hv

lemma foldl_step_nil_snd (rows : List (List Cell)) :
    ∀ acc, (∀ p ∈ acc, p.2 = ([] : List (String × String))) →
      ∀ p ∈ rows.foldl (season_fold_step []) acc, p.2 = [] := by
  induction rows with
  | nil =>
    intro acc h
    simpa using h
  | cons row rest ih =>
    intro acc h
    rw [List.foldl_cons]
    apply ih
    cases row with
    | nil => exact h
    | cons c0 tl => exact dictInsert_snd_prop (P := fun x => x = []) h rfl

lemma foldl_step_nil_eq_nil (rows : List (List Cell)) :
    ∀ acc, (rows.foldl (season_fold_step []) acc = [] ↔
      acc = [] ∧ ∀ row ∈ rows, row = []) := by
  induction rows with
  | nil => intro acc; simp
  | cons row rest ih =>
    intro acc
    rw [List.foldl_cons]
    cases row with
    | nil =>
      rw [show season_fold_step [] acc [] = acc from rfl, ih acc]
      simp
    | cons c0 tl =>
      rw [ih]
      have hne : season_fold_step [] acc (c0 :: tl) ≠ [] := dictInsert_ne_nil _ _ _
      constructor
      · rintro ⟨hnil, -⟩
        exact absurd hnil hne
      · rintro ⟨-, hall⟩
        exact absurd (hall (c0 :: tl) (by simp)) (by simp)


/-! ### Claim theorems -/

/-- C3: for a synthetic PAIRED-mode seasons table whose second header
row holds the cells "Jan/Feb" and "Mar/Apr" and whose body has one
metric row with first cell text "best season", an image cell with
filename "3-star.png" and an image cell with filename
"wanna-empty-1x1.gif", `parse_seasons_table` returns exactly the
mapping best_season ↦ (jan_feb ↦ "3-star.png", mar_apr ↦ "0"). -/
theorem seasons_decode_round_trip :
    parse_seasons_table
      ⟨[[⟨"Seasons", "Seasons", none⟩],
        [⟨"Jan/Feb", "Jan/Feb", none⟩, ⟨"Mar/Apr", "Mar/Apr", none⟩]],
       [[⟨"best season", "best season", none⟩, ⟨"", "", some "3-star.png"⟩,
         ⟨"", "", some "wanna-empty-1x1.gif"⟩]]⟩ "bi" =
      [("best_season", [("jan_feb", "3-star.png"), ("mar_apr", "0")])] := by
  decide

/-- C4 counterexample: a PAIRED-mode table with only one header row (so
no qualifying header row is found and the column-key list is empty)
whose body holds one metric row.  `parse_seasons_table` returns the
non-empty mapping x ↦ (empty dictionary), refuting the claim that the
result mapping is empty for every such table. -/
theorem no_header_result_not_empty :
    season_month_headers ⟨[[]], [[⟨"x", "x", none⟩]]⟩ "bi" = [] ∧
    parse_seasons_table ⟨[[]], [[⟨"x", "x", none⟩]]⟩ "bi" = [("x", [])] ∧
    parse_seasons_table ⟨[[]], [[⟨"x", "x", none⟩]]⟩ "bi" ≠ [] := by
  refine ⟨by decide, by decide, by decide⟩

/-- C4 (amended): when no qualifying header row is found the column-key
list is empty and no error is raised; every metric row then contributes
its metric key mapped to an EMPTY inner mapping, so the result mapping
is empty exactly when no body row has cells. -/
theorem no_header_empty_columns (table : SeasonsTableDoc) (fmt : String)
    (h : season_month_headers table fmt = []) :
    (∀ p ∈ parse_seasons_table table fmt, p.2 = []) ∧
    (parse_seasons_table table fmt = [] ↔ ∀ row ∈ table.tbodyRows, row = []) := by
  unfold parse_seasons_table
  rw [h]
  exact ⟨foldl_step_nil_snd _ [] (by simp),
    by rw [foldl_step_nil_eq_nil]; simp⟩

/-- C4 witness: the amended theorem applied to a concrete headerless
table with one metric row. -/
theorem no_header_empty_columns_witness :
    (∀ p ∈ parse_seasons_table ⟨[[]], [[⟨"y", "y", none⟩]]⟩ "bi", p.2 = []) ∧
    (parse_seasons_table ⟨[[]], [[⟨"y", "y", none⟩]]⟩ "bi" = [] ↔
      ∀ row ∈ (⟨[[]], [[⟨"y", "y", none⟩]]⟩ : SeasonsTableDoc).tbodyRows,
        row = []) :=
  no_header_empty_columns ⟨[[]], [[⟨"y", "y", none⟩]]⟩ "bi" (by decide)

/-- C9: the spot name is exempt from sentinel normalisation - the
normalisation loop never touches `name` - so when the document has no
usable title and the URI fallback segment is empty, the returned spot
has an empty name while all 22 other fields carry the sentinel. -/
theorem name_exempt_from_sentinel :
    (∀ s : Spot, (normalize_spot s).name = s.name) ∧
    parse_spot_page ⟨none, "https://x/spot//", none, none, none, none, none⟩ =
      some { name := "", distance := "empty", walk := "empty",
             easy_to_find := "empty", public_access := "empty",
             special_access := "empty", wave_quality := "empty",
             experience := "empty", frequency := "empty", type := "empty",
             direction := "empty", bottom := "empty", power := "empty",
             normal_length := "empty", good_day_length := "empty",
             good_swell_direction := "empty", good_wind_direction := "empty",
             swell_size := "empty", best_tide_position := "empty",
             best_tide_movement := "empty", additional_information := "empty",
             latitude := "empty", longitude := "empty" } :=
  ⟨fun _ => rfl, by decide⟩


lemma fill_empty_spec (v : String) :
    fill_empty v ≠ "" ∧ (fill_empty v = "empty" ∨ fill_empty v = v) := by
  unfold fill_empty
  by_cases h : v == ""
  · rw [if_pos h]
    exact ⟨by decide, Or.inl rfl⟩
  · rw [if_neg h]
    refine ⟨fun he => ?_, Or.inr rfl⟩
    rw [he] at h
    exact h rfl

/-- C1: every spot returned by `parse_spot_page` is exactly the one-shot
sentinel normalisation of the fully extracted spot, and each of its 22
named fields other than the name is either the non-empty extracted
string or exactly the literal sentinel "empty"; no returned field is the
empty string. -/
theorem spot_fields_nonempty_or_sentinel (d : SpotDoc) (s : Spot)
    (h : parse_spot_page d = some s) :
    ∃ pre, parse_spot_page_raw d = some pre ∧ s = normalize_spot pre ∧
      ∀ q ∈ (spot_fields_22 s).zip (spot_fields_22 pre),
        q.1 ≠ "" ∧ (q.1 = "empty" ∨ q.1 = q.2) := by
  unfold parse_spot_page at h
  cases hraw : parse_spot_page_raw d with
  | none =>
    rw [hraw] at h
    simp at h
  | some pre =>
    rw [hraw] at h
    simp only [Option.map_some', Option.some.injEq] at h
    refine ⟨pre, rfl, h.symm, ?_⟩
    subst h
    intro q hq
    simp only [spot_fields_22, normalize_spot, List.zip_cons_cons,
      List.zip_nil_right, List.mem_cons, List.not_mem_nil, or_false] at hq
    rcases hq with rfl | rfl | rfl | rfl | rfl | rfl | rfl | rfl | rfl | rfl |
      rfl | rfl | rfl | rfl | rfl | rfl | rfl | rfl | rfl | rfl | rfl | rfl
    all_goals exact fill_empty_spec _

/-- C1 witness: the theorem applied to a concrete spot document with a
populated access label, a populated characteristics label, additional
information and a latitude, and everything else missing. -/
theorem spot_fields_nonempty_or_sentinel_witness :
    ∃ pre,
      parse_spot_page_raw
        ⟨some "My Spot - Wannasurf", "https://x/spot/",
         some [("Distance:", " 5 km ")], some [("Type", "reef")],
         some " extra  info ", some "12.5", none⟩ = some pre ∧
      ({ name := "My Spot", distance := "5 km", walk := "empty",
         easy_to_find := "empty", public_access := "empty",
         special_access := "empty", wave_quality := "empty",
         experience := "empty", frequency := "empty", type := "reef",
         direction := "empty", bottom := "empty", power := "empty",
         normal_length := "empty", good_day_length := "empty",
         good_swell_direction := "empty", good_wind_direction := "empty",
         swell_size := "empty", best_tide_position := "empty",
         best_tide_movement := "empty", additional_information := "extra info",
         latitude := "12.5", longitude := "empty" } : Spot) =
        normalize_spot pre ∧
      ∀ q ∈ (spot_fields_22
          { name := "My Spot", distance := "5 km", walk := "empty",
            easy_to_find := "empty", public_access := "empty",
            special_access := "empty", wave_quality := "empty",
            experience := "empty", frequency := "empty", type := "reef",
            direction := "empty", bottom := "empty", power := "empty",
            normal_length := "empty", good_day_length := "empty",
            good_swell_direction := "empty", good_wind_direction := "empty",
            swell_size := "empty", best_tide_position := "empty",
            best_tide_movement := "empty",
            additional_information := "extra info",
            latitude := "12.5", longitude := "empty" }).zip
          (spot_fields_22 pre),
        q.1 ≠ "" ∧ (q.1 = "empty" ∨ q.1 = q.2) :=
  spot_fields_nonempty_or_sentinel
    ⟨some "My Spot - Wannasurf", "https://x/spot/",
     some [("Distance:", " 5 km ")], some [("Type", "reef")],
     some " extra  info ", some "12.5", none⟩
    { name := "My Spot", distance := "5 km", walk := "empty",
      easy_to_find := "empty", public_access := "empty",
      special_access := "empty", wave_quality := "empty",
      experience := "empty", frequency := "empty", type := "reef",
      direction := "empty", bottom := "empty", power := "empty",
      normal_length := "empty", good_day_length := "empty",
      good_swell_direction := "empty", good_wind_direction := "empty",
      swell_size := "empty", best_tide_position := "empty",
      best_tide_movement := "empty", additional_information := "extra info",
      latitude := "12.5", longitude := "empty" }
    (by decide)


lemma append_dash_empty (a : String) : a ++ " - empty" = a ++ " - " ++ "empty" := by
  have h : (" - " ++ "empty" : String) = " - empty" := by decide
  rw [String.append_assoc, h]

/-- The line rendered by `format_seasons` for metric `mk'` at month slot
`m`: "<label> - empty" when the metric or the month is missing, when the
stored value is the empty string, or when it is the decoder's "0"
placeholder; "<label> - <value>" otherwise. -/
lemma format_seasons_lines_eq
    (seasons : List (String × List (String × String))) (mk' : String) :
    format_seasons_lines seasons mk' =
      default_months.map (fun m =>
        (dictGet? seasons mk').elim (month_label m ++ " - empty")
          (fun inner =>
            (dictGet? inner m).elim (month_label m ++ " - empty")
              (fun v =>
                if v == "" || v == "0" then month_label m ++ " - empty"
                else month_label m ++ " - " ++ v))) := by
  unfold format_seasons_lines
  cases hg : dictGet? seasons mk' with
  | none =>
    rw [if_pos (by simp)]
    simp only [Option.elim_none]
  | some inner =>
    have hne : seasons.isEmpty = false := by
      cases hs : seasons with
      | nil =>
        rw [hs] at hg
        simp [dictGet?] at hg
      | cons a l => rfl
    rw [if_neg (by simp [hne])]
    simp only [Option.elim_some, dictGetD, hg, Option.getD_some]
    apply List.map_congr_left
    intro m _
    cases hm : dictGet? inner m with
    | none =>
      simp only [Option.getD_none, Option.elim_none]
      rw [if_pos (by decide)]
    | some v =>
      simp only [Option.getD_some, Option.elim_some]

/-- C5: for every seasons mapping and metric key, `format_seasons`
renders exactly six lines over the fixed paired-month axis jan/feb,
mar/apr, may/jun, jul/aug, sep/oct, nov/dec, each of the form
"<column label> - <value-or-empty>"; a missing metric or missing column
key yields "<column label> - empty", and the fill happens at render
time only (the stored seasons mapping is merely read, never changed). -/
theorem format_seasons_six_lines
    (seasons : List (String × List (String × String))) (metric_key : String) :
    (format_seasons_lines seasons metric_key).length = 6 ∧
    format_seasons seasons metric_key =
      pyJoin "\n" (format_seasons_lines seasons metric_key) ∧
    format_seasons_lines seasons metric_key =
      default_months.map (fun m =>
        (dictGet? seasons metric_key).elim (month_label m ++ " - empty")
          (fun inner =>
            (dictGet? inner m).elim (month_label m ++ " - empty")
              (fun v =>
                if v == "" || v == "0" then month_label m ++ " - empty"
                else month_label m ++ " - " ++ v))) := by
  refine ⟨?_, rfl, format_seasons_lines_eq seasons metric_key⟩
  rw [format_seasons_lines_eq]
  simp [default_months]

/-- C10: a stored seasonal value equal to the string "0" is rendered
exactly like a missing value - the slot's line is
"<column label> - empty" - and no rendered line carries the value "0":
every line is "<column label> - <w>" for some w that is never "0". -/
theorem zero_rendered_as_empty
    (seasons : List (String × List (String × String)))
    (mk' : String) (inner : List (String × String)) (m : String)
    (hin : dictGet? seasons mk' = some inner)
    (hm : m ∈ default_months)
    (h0 : dictGet? inner m = some "0") :
    ∃ g : String → String,
      format_seasons_lines seasons mk' = default_months.map g ∧
      g m = month_label m ++ " - empty" ∧
      ∀ m', ∃ w, g m' = month_label m' ++ " - " ++ w ∧ w ≠ "0" := by
  refine ⟨fun m' =>
    (dictGet? seasons mk').elim (month_label m' ++ " - empty")
      (fun inner' =>
        (dictGet? inner' m').elim (month_label m' ++ " - empty")
          (fun v =>
            if v == "" || v == "0" then month_label m' ++ " - empty"
            else month_label m' ++ " - " ++ v)),
    format_seasons_lines_eq seasons mk', ?_, ?_⟩
  · simp only [hin, Option.elim_some, h0]
    rw [if_pos (by decide)]
  · intro m'
    simp only [hin, Option.elim_some]
    cases hm' : dictGet? inner m' with
    | none =>
      exact ⟨"empty", by simp only [Option.elim_none]; exact append_dash_empty _,
        by decide⟩
    | some v =>
      simp only [Option.elim_some]
      by_cases hv : (v == "" || v == "0") = true
      · refine ⟨"empty", ?_, by decide⟩
        rw [if_pos hv]
        exact append_dash_empty _
      · refine ⟨v, by rw [if_neg hv], fun he => ?_⟩
        rw [he] at hv
        simp at hv

/-- C10 witness: the theorem applied to a concrete mapping storing the
"0" placeholder for jan/feb of the best-surfing-season metric. -/
theorem zero_rendered_as_empty_witness :
    ∃ g : String → String,
      format_seasons_lines [("best_surfing_season", [("jan_feb", "0")])]
          "best_surfing_season" = default_months.map g ∧
      g "jan_feb" = month_label "jan_feb" ++ " - empty" ∧
      ∀ m', ∃ w, g m' = month_label m' ++ " - " ++ w ∧ w ≠ "0" :=
  zero_rendered_as_empty [("best_surfing_season", [("jan_feb", "0")])]
    "best_surfing_season" [("jan_feb", "0")] "jan_feb"
    (by decide) (by decide) (by decide)

lemma parse_spot_links_append
    (l1 l2 : List (String × String × Except Unit SpotDoc)) :
    parse_spot_links (l1 ++ l2) =
      ((parse_spot_links l1).1 ++ (parse_spot_links l2).1,
       (parse_spot_links l1).2 ++ (parse_spot_links l2).2) := by
  induction l1 with
  | nil => simp [parse_spot_links]
  | cons e rest ih =>
    obtain ⟨n, u, r⟩ := e
    cases r with
    | error err => simp [parse_spot_links, ih]
    | ok d =>
      cases hp : parse_spot_page d with
      | none => simp [parse_spot_links, hp, ih]
      | some s => simp [parse_spot_links, hp, ih]

lemma parse_zone_links_append
    (l1 l2 : List (String × String × Except Unit NodeDoc)) :
    parse_zone_links (l1 ++ l2) =
      ((parse_zone_links l1).1 ++ (parse_zone_links l2).1,
       (parse_zone_links l1).2 ++ (parse_zone_links l2).2) := by
  induction l1 with
  | nil => simp [parse_zone_links]
  | cons e rest ih =>
    obtain ⟨n, u, r⟩ := e
    cases r with
    | error err => simp [parse_zone_links, ih]
    | ok dd =>
      cases hp : parse_country_or_zone_page dd false with
      | none => simp [parse_zone_links, hp, ih]
      | some zl => simp [parse_zone_links, hp, ih]

/-- C2: failure isolation in `parse_country_or_zone_page`.  When one
discovered child link - a sub-zone link or a surf-spot link - raises,
the exception is caught, the corresponding warning is logged, and only
that child is omitted: the parent's parse still succeeds and its
`sub_zones` (resp. `surf_spots`) list is exactly the successfully
parsed children before the failure followed by those after it, in
discovery order. -/
theorem child_failure_isolation (meta : NodeMeta) (is_country : Bool)
    (sl : List (String × String × Except Unit SpotDoc))
    (zl : List (String × String × Except Unit NodeDoc))
    (zpre zpost : List (String × String × Except Unit NodeDoc))
    (spre spost : List (String × String × Except Unit SpotDoc))
    (zn zu sn su : String)
    (hname : (parse_node_name meta.title meta.url).isSome) :
    (∃ z log,
      parse_country_or_zone_page
          (.mk meta sl (zpre ++ (zn, zu, .error ()) :: zpost)) is_country =
        some (z, log) ∧
      z.sub_zones = (parse_zone_links zpre).1 ++ (parse_zone_links zpost).1 ∧
      z.surf_spots = (parse_spot_links sl).1 ∧
      zone_warning zn zu ∈ log) ∧
    (∃ z log,
      parse_country_or_zone_page
          (.mk meta (spre ++ (sn, su, .error ()) :: spost) zl) is_country =
        some (z, log) ∧
      z.surf_spots = (parse_spot_links spre).1 ++ (parse_spot_links spost).1 ∧
      z.sub_zones = (parse_zone_links zl).1 ∧
      spot_warning sn su ∈ log) := by
  obtain ⟨nm, hnm⟩ := Option.isSome_iff_exists.mp hname
  have hz : parse_zone_links ((zn, zu, Except.error ()) :: zpost) =
      ((parse_zone_links zpost).1,
       zone_warning zn zu :: (parse_zone_links zpost).2) := by
    simp [parse_zone_links]
  have hs : parse_spot_links ((sn, su, Except.error ()) :: spost) =
      ((parse_spot_links spost).1,
       spot_warning sn su :: (parse_spot_links spost).2) := by
    simp [parse_spot_links]
  constructor
  · have heq : parse_country_or_zone_page
        (.mk meta sl (zpre ++ (zn, zu, Except.error ()) :: zpost)) is_country =
        some (Zone.mk nm meta.url (parse_about meta.aboutPara)
            (parse_at_a_glance is_country meta.infosText)
            (parse_node_seasons meta.seasonsTable)
            (parse_additional_map meta.mapImgSrc)
            (parse_spot_links sl).1
            (parse_zone_links (zpre ++ (zn, zu, Except.error ()) :: zpost)).1,
          (parse_spot_links sl).2 ++
            (parse_zone_links (zpre ++ (zn, zu, Except.error ()) :: zpost)).2) := by
      simp only [parse_country_or_zone_page, hnm]
    refine ⟨_, _, heq, ?_, rfl, ?_⟩
    · rw [Zone.sub_zones, parse_zone_links_append, hz]
    · rw [parse_zone_links_append, hz]
      simp
  · have heq : parse_country_or_zone_page
        (.mk meta (spre ++ (sn, su, Except.error ()) :: spost) zl) is_country =
        some (Zone.mk nm meta.url (parse_about meta.aboutPara)
            (parse_at_a_glance is_country meta.infosText)
            (parse_node_seasons meta.seasonsTable)
            (parse_additional_map meta.mapImgSrc)
            (parse_spot_links (spre ++ (sn, su, Except.error ()) :: spost)).1
            (parse_zone_links zl).1,
          (parse_spot_links (spre ++ (sn, su, Except.error ()) :: spost)).2 ++
            (parse_zone_links zl).2) := by
      simp only [parse_country_or_zone_page, hnm]
    refine ⟨_, _, heq, ?_, rfl, ?_⟩
    · rw [Zone.surf_spots, parse_spot_links_append, hs]
    · rw [parse_spot_links_append, hs]
      simp

/-- C2 witness: the theorem applied to a concrete node with three
discovered sub-zone links of which the second fails, and separately a
concrete spot-link failure; the surviving children are exactly the
first and third, in order. -/
theorem child_failure_isolation_witness :
    ((∃ z log,
      parse_country_or_zone_page
          (.mk ⟨some "France - Surf", "https://x/fr/", none, none, none, none⟩
            []
            ([("Z1", "u1", .ok (.mk ⟨some "Z1 - Surf", "https://x/z1/",
                none, none, none, none⟩ [] []))] ++
              ("Z2", "u2", .error ()) ::
              [("Z3", "u3", .ok (.mk ⟨some "Z3 - Surf", "https://x/z3/",
                none, none, none, none⟩ [] []))])) false =
        some (z, log) ∧
      z.sub_zones =
        (parse_zone_links [("Z1", "u1", .ok (.mk ⟨some "Z1 - Surf",
          "https://x/z1/", none, none, none, none⟩ [] []))]).1 ++
        (parse_zone_links [("Z3", "u3", .ok (.mk ⟨some "Z3 - Surf",
          "https://x/z3/", none, none, none, none⟩ [] []))]).1 ∧
      z.surf_spots = (parse_spot_links []).1 ∧
      zone_warning "Z2" "u2" ∈ log) ∧
    (∃ z log,
      parse_country_or_zone_page
          (.mk ⟨some "France - Surf", "https://x/fr/", none, none, none, none⟩
            ([] ++ ("S2", "su2", .error ()) :: []) []) false =
        some (z, log) ∧
      z.surf_spots = (parse_spot_links []).1 ++ (parse_spot_links []).1 ∧
      z.sub_zones = (parse_zone_links []).1 ∧
      spot_warning "S2" "su2" ∈ log)) ∧
    ((parse_zone_links [("Z1", "u1", .ok (.mk ⟨some "Z1 - Surf",
        "https://x/z1/", none, none, none, none⟩ [] []))]).1 ++
      (parse_zone_links [("Z3", "u3", .ok (.mk ⟨some "Z3 - Surf",
        "https://x/z3/", none, none, none, none⟩ [] []))]).1).map Zone.name =
      ["Z1", "Z3"] :=
  ⟨child_failure_isolation
    ⟨some "France - Surf", "https://x/fr/", none, none, none, none⟩ false
    []
    []
    [("Z1", "u1", .ok (.mk ⟨some "Z1 - Surf", "https://x/z1/",
      none, none, none, none⟩ [] []))]
    [("Z3", "u3", .ok (.mk ⟨some "Z3 - Surf", "https://x/z3/",
      none, none, none, none⟩ [] []))]
    [] [] "Z2" "u2" "S2" "su2" (by decide), by rfl⟩


lemma cons_cons_append_nodup (a b : String) (ns1 ns2 : List String)
    (hab : a ≠ b)
    (hnd1 : ns1.Nodup) (hnd2 : ns2.Nodup)
    (hdj1 : ∀ x ∈ ns1, x ∉ [a, b])
    (hdj2 : ∀ x ∈ ns2, x ∉ [a, b] ++ ns1) :
    (a :: b :: (ns1 ++ ns2)).Nodup := by
  refine List.nodup_cons.mpr ⟨?_, List.nodup_cons.mpr ⟨?_, ?_⟩⟩
  · intro hmem
    rcases List.mem_cons.mp hmem with h | h
    · exact hab h
    · rcases List.mem_append.mp h with h1 | h1
      · exact hdj1 _ h1 (by simp)
      · exact hdj2 _ h1 (by simp)
  · intro hmem
    rcases List.mem_append.mp hmem with h1 | h1
    · exact hdj1 _ h1 (by simp)
    · exact hdj2 _ h1 (by simp)
  · refine List.Nodup.append hnd1 hnd2 ?_
    intro x hx1 hx2
    exact hdj2 x hx2 (by simp [hx1])

/-- C6: within one workbook, sheet names are a deterministic function of
the forest (the naming procedure is a pure function of it) and never
collide: the full ordered name list is duplicate-free, and each assigned
name is either the sanitised 31-truncated base or, on collision with an
already-created sheet, the 28-truncated base with an appended numeric
suffix - so two zones whose names sanitise to the same base receive
distinct names differing only by the suffix. -/
theorem sheet_names_deterministic_nodup (countries : List (String × Zone)) :
    (workbook_sheet_names countries).Nodup ∧
    (∀ created zname, assign_sheet_name created zname ∉ created ∧
      (assign_sheet_name created zname = pyTake (sanitize_name zname) 31 ∨
       ∃ k, 1 ≤ k ∧ assign_sheet_name created zname =
         pyTake (pyTake (sanitize_name zname) 31) 28 ++ "_" ++ Nat.repr k)) := by
  constructor
  · have hrw : workbook_sheet_names countries =
        "Country" :: "Zones" ::
          ((assign_all ["Country", "Zones"]
              ((nested_zones countries).map (fun p => p.1))).2 ++
            (assign_all
              ((assign_all ["Country", "Zones"]
                ((nested_zones countries).map (fun p => p.1))).1)
              (countries.flatMap
                (fun c => (leaf_zones c.2).map (fun p => p.1)))).2) := rfl
    rw [hrw, assign_all_fst ["Country", "Zones"]
      ((nested_zones countries).map (fun p => p.1))]
    exact cons_cons_append_nodup _ _ _ _ (by decide)
      (assign_all_nodup_disjoint _ _).1
      (assign_all_nodup_disjoint _ _).1
      (assign_all_nodup_disjoint _ _).2
      (assign_all_nodup_disjoint _ _).2
  · intro created zname
    refine ⟨assign_sheet_name_not_mem created zname, ?_⟩
    simp only [assign_sheet_name]
    by_cases hc : pyTake (sanitize_name zname) 31 ∈ created
    · rw [if_pos hc]
      obtain ⟨k, hk, he⟩ := assign_loop_suffix_form created
        (pyTake (sanitize_name zname) 31) (created.length + 1) 1
      exact Or.inr ⟨k, hk, he⟩
    · rw [if_neg hc]
      exact Or.inl rfl

/-- C7 (code evaluated at the failing input): a chain
country → Z1 → Z2 → Z3 where Z3 is a leaf container (empty `sub_zones`)
holding one surf spot.  The workbook's leaf-zone collection for this
country is empty - the loops stop at depth 3 - so no surf-spot sheet is
created for Z3: the workbook contains only the fixed sheets and the
nested-zone sheet for Z1, contradicting the claim that every leaf
container at any depth gets a surf-spot sheet. -/
theorem deep_leaf_zone_no_sheet :
    (Zone.mk "Z3" "u3" "" "" [] none [{ name := "S" }] []).sub_zones = [] ∧
    leaf_zones
      (Zone.mk "C" "uc" "" "" [] none []
        [Zone.mk "Z1" "u1" "" "" [] none []
          [Zone.mk "Z2" "u2" "" "" [] none []
            [Zone.mk "Z3" "u3" "" "" [] none [{ name := "S" }] []]]]) = [] ∧
    workbook_sheet_names
      [("C", Zone.mk "C" "uc" "" "" [] none []
        [Zone.mk "Z1" "u1" "" "" [] none []
          [Zone.mk "Z2" "u2" "" "" [] none []
            [Zone.mk "Z3" "u3" "" "" [] none [{ name := "S" }] []]]])] =
      ["Country", "Zones", "Z1"] :=
  ⟨rfl, rfl, rfl⟩

/-- C8 counterexample: the driver's sampling step mutates a constructed
`Zone`: a zoneless country holding six surf spots leaves `main`'s
per-country processing with its `surf_spots` list truncated to five, so
the node is not immutable after construction. -/
theorem sampling_mutates_zone :
    (main_process_country true
        (Zone.mk "C" "u" "" "" [] none
          [{ name := "1" }, { name := "2" }, { name := "3" },
           { name := "4" }, { name := "5" }, { name := "6" }] [])).surf_spots =
      [{ name := "1" }, { name := "2" }, { name := "3" },
       { name := "4" }, { name := "5" }] ∧
    main_process_country true
        (Zone.mk "C" "u" "" "" [] none
          [{ name := "1" }, { name := "2" }, { name := "3" },
           { name := "4" }, { name := "5" }, { name := "6" }] []) ≠
      Zone.mk "C" "u" "" "" [] none
        [{ name := "1" }, { name := "2" }, { name := "3" },
         { name := "4" }, { name := "5" }, { name := "6" }] [] := by
  refine ⟨rfl, fun h => ?_⟩
  have hlen := congrArg (fun z => z.surf_spots.length) h
  simp only at hlen
  rw [show (main_process_country true
      (Zone.mk "C" "u" "" "" [] none
        [{ name := "1" }, { name := "2" }, { name := "3" },
         { name := "4" }, { name := "5" }, { name := "6" }] [])).surf_spots.length
      = 5 from rfl] at hlen
  rw [show (Zone.mk "C" "u" "" "" [] none
      [{ name := "1" }, { name := "2" }, { name := "3" },
       { name := "4" }, { name := "5" }, { name := "6" }]
      ([] : List Zone)).surf_spots.length = 6 from rfl] at hlen
  omega

/-- C8 (amended): Zones are immutable after construction except for the
driver's sampling step: with `sample=False` the per-country processing
is the identity, and in sample mode it can only replace a surf-spot
list (of the country itself, or of the first zone of a country with
zones) by its five-element truncation - name, url, about, at-a-glance,
seasons and additional map are always preserved. -/
theorem zone_mutation_only_sampling (cz : Zone) :
    main_process_country false cz = cz ∧
    (main_process_country true cz).name = cz.name ∧
    (main_process_country true cz).url = cz.url ∧
    (main_process_country true cz).about = cz.about ∧
    (main_process_country true cz).at_a_glance = cz.at_a_glance ∧
    (main_process_country true cz).seasons = cz.seasons ∧
    (main_process_country true cz).additional_map = cz.additional_map ∧
    ((main_process_country true cz).surf_spots = cz.surf_spots ∨
     (main_process_country true cz).surf_spots = cz.surf_spots.take 5) ∧
    ((main_process_country true cz).sub_zones = cz.sub_zones ∨
     ∃ z rest, cz.sub_zones = z :: rest ∧
       (main_process_country true cz).sub_zones =
         sample_limit_spots true z :: rest) := by
  obtain ⟨n, u, a, g, se, m, sp, sz⟩ := cz
  cases sz with
  | nil =>
    constructor
    · show sample_limit_spots false (Zone.mk n u a g se m sp []) = _
      unfold sample_limit_spots
      rw [if_neg (fun hc => absurd hc.1 (by decide))]
    · have hred : main_process_country true (Zone.mk n u a g se m sp []) =
          sample_limit_spots true (Zone.mk n u a g se m sp []) := rfl
      rw [hred]
      unfold sample_limit_spots
      by_cases hlen :
          5 < (Zone.mk n u a g se m sp ([] : List Zone)).surf_spots.length
      · rw [if_pos ⟨rfl, hlen⟩]
        exact ⟨rfl, rfl, rfl, rfl, rfl, rfl, Or.inr rfl, Or.inl rfl⟩
      · rw [if_neg (fun hc => hlen hc.2)]
        exact ⟨rfl, rfl, rfl, rfl, rfl, rfl, Or.inl rfl, Or.inl rfl⟩
  | cons z rest =>
    constructor
    · rfl
    · have hred : main_process_country true (Zone.mk n u a g se m sp (z :: rest)) =
          (Zone.mk n u a g se m sp (z :: rest)).withSubZones
            (sample_limit_spots true z :: rest) := rfl
      rw [hred]
      exact ⟨rfl, rfl, rfl, rfl, rfl, rfl, Or.inl rfl,
        Or.inr ⟨z, rest, rfl, rfl⟩⟩

end Wannasurf
